import Mathlib

/-!
Verification of the effect-handler autoguides in
`pyro/infer/autoguide/effect.py` (classes `AutoMessenger`,
`AutoNormalMessenger`, `AutoRegressiveMessenger`) against their
natural-language specification.

The tensor calculus, plate registry, bijection library and parameter store
are external collaborators of that file; they are embedded here just deeply
enough for the guide logic to be stated faithfully.  Tensors carry exact
rational entries.
-/

/-! ## Tensors

A tensor is a shape together with a total assignment of a rational to every
multi-index; only indices below the shape are meaningful. -/

structure Tensor where
  shape : List Nat
  data : List Nat → ℚ

/-- Number of dimensions, `value.dim()` in torch. -/
def Tensor.dim (t : Tensor) : Nat := t.shape.length

/-- Convert a (possibly negative, as in torch) axis index into an absolute
axis position counted from the left. -/
def axisOf (ndim : Nat) (dim : Int) : Nat :=
  (if dim < 0 then (ndim : Int) + dim else dim).toNat

/-- All meaningful multi-indices of a shape, in row-major order. -/
def allIndices : List Nat → List (List Nat)
  | [] => [[]]
  | n :: rest => (List.range n).flatMap (fun i => (allIndices rest).map (i :: ·))

/-- Extensional equality of tensors: same shape and same entries on every
meaningful index.  This is the observable equality of torch tensors. -/
def Tensor.Teq (a b : Tensor) : Prop :=
  a.shape = b.shape ∧ ∀ idx ∈ allIndices a.shape, a.data idx = b.data idx

instance (a b : Tensor) : Decidable (Tensor.Teq a b) := by
  unfold Tensor.Teq; infer_instance

/-- A one-dimensional tensor from a list of entries. -/
def Tensor.ofList1 (l : List ℚ) : Tensor :=
  { shape := [l.length], data := fun idx => l.getD (idx.getD 0 0) 0 }

/-- `value.mean(dim, keepdim=True)` of torch: replace the axis at (possibly
negative) position `dim` by a size-1 axis holding the mean along it. -/
def Tensor.mean (t : Tensor) (dim : Int) : Tensor :=
  let axis := axisOf t.shape.length dim
  let n := t.shape.getD axis 0
  { shape := t.shape.set axis 1
    data := fun idx => (((List.range n).map fun j => t.data (idx.set axis j)).sum) / (n : ℚ) }

/-- `value.squeeze(0)` of torch: drop the leading axis when it has size 1,
otherwise leave the tensor unchanged. -/
def Tensor.squeeze0 (t : Tensor) : Tensor :=
  match t.shape with
  | 1 :: rest => { shape := rest, data := fun idx => t.data (0 :: idx) }
  | _ => t

/-- The squeeze loop of `_remove_outer_plates`: `squeeze(0)` applied `k`
times, where `k = value.dim() - event_dim` is fixed up front. -/
def squeezeLeading : Nat → Tensor → Tensor
  | 0, t => t
  | k + 1, t => squeezeLeading k t.squeeze0

/-- `torch.full_like(t, c)`. -/
def Tensor.full_like (t : Tensor) (c : ℚ) : Tensor :=
  { shape := t.shape, data := fun _ => c }

/-- Elementwise multiplication of a tensor by a scalar, `t * c` in torch. -/
def Tensor.mulScalar (t : Tensor) (c : ℚ) : Tensor :=
  { shape := t.shape, data := fun idx => t.data idx * c }

/-- Modelled from the spec: `periodic_repeat(value, size, dim)` from
`pyro.ops.tensor_utils` is imported by `effect.py` but its source is not
under `src/`.  Per the spec it tiles the axis at (negative) position `dim`
periodically up to length `size`, so that along that axis
`result[i] = value[i mod period]` where `period` is the original length. -/
def periodic_repeat (t : Tensor) (size : Nat) (dim : Int) : Tensor :=
  let axis := axisOf t.shape.length dim
  let period := t.shape.getD axis 1
  { shape := t.shape.set axis size
    data := fun idx => t.data (idx.set axis ((idx.getD axis 0) % period)) }

/-! ## Supports, transforms and distributions (external bijection and
distribution libraries)

Only the structure the guide code reads is modelled: a support yields via
`biject_to` an invertible transform with a domain event dimension.  The
modelled supports all have exact rational bijections. -/

inductive Support where
  | real : Support
  | shifted (a b : ℚ) : Support
  | realVector (n : Nat) : Support
  | indep (s : Support) (n : Nat) : Support
deriving DecidableEq

/-- Event dimension of the unconstrained domain of the bijection attached
to a support. -/
def Support.eventDim : Support → Nat
  | .real => 0
  | .shifted _ _ => 0
  | .realVector _ => 1
  | .indep s n => s.eventDim + n

/-- Forward (unconstrained to constrained) map of the bijection attached to
a support, applied elementwise. -/
def Support.fwdT : Support → Tensor → Tensor
  | .real, t => t
  | .shifted a b, t => { shape := t.shape, data := fun idx => a * t.data idx + b }
  | .realVector _, t => t
  | .indep s _, t => s.fwdT t

/-- Inverse (constrained to unconstrained) map of the bijection attached to
a support, applied elementwise. -/
def Support.invT : Support → Tensor → Tensor
  | .real, t => t
  | .shifted a b, t => { shape := t.shape, data := fun idx => (t.data idx - b) / a }
  | .realVector _, t => t
  | .indep s _, t => s.invT t

/-- Symbolic transform expressions, as the guide builds them. -/
inductive Tfm where
  | biject (s : Support) : Tfm
  | invOf (t : Tfm) : Tfm
  | withCache (t : Tfm) : Tfm
  | affineT (loc scale : Tensor) (event_dim : Nat) (cache_size : Nat) : Tfm

/-- `biject_to(support)` of the external bijection library. -/
def bijectTo (s : Support) : Tfm := .biject s

/-- `transform.inv`. -/
def Tfm.inv (t : Tfm) : Tfm := .invOf t

/-- `transform.with_cache()`; caching does not change the map. -/
def Tfm.with_cache (t : Tfm) : Tfm := .withCache t

/-- `transform.domain.event_dim`.  For the modelled supports the domain and
codomain event dimensions agree, so inversion preserves the value. -/
def Tfm.domainEventDim : Tfm → Nat
  | .biject s => s.eventDim
  | .invOf t => t.domainEventDim
  | .withCache t => t.domainEventDim
  | .affineT _ _ e _ => e

/-- Application of a transform expression; the Bool records the direction
(`true` is forward) and is flipped by `invOf`. -/
def Tfm.applyDir : Tfm → Bool → Tensor → Tensor
  | .biject s, true, v => s.fwdT v
  | .biject s, false, v => s.invT v
  | .invOf t, d, v => t.applyDir (!d) v
  | .withCache t, d, v => t.applyDir d v
  | .affineT loc scale _ _, true, v =>
      { shape := v.shape, data := fun idx => loc.data idx + scale.data idx * v.data idx }
  | .affineT loc scale _ _, false, v =>
      { shape := v.shape, data := fun idx => (v.data idx - loc.data idx) / scale.data idx }

/-- `transform(value)`. -/
def Tfm.apply (t : Tfm) (v : Tensor) : Tensor := t.applyDir true v

/-- Symbolic distribution expressions: opaque primitive distributions
(tagged by a descriptive string), `dist.Normal`, `.to_event(n)`, and
`dist.TransformedDistribution` (a single transform is the singleton list). -/
inductive Dst where
  | prim (tag : String) (supp : Support) : Dst
  | normal (loc scale : Tensor) : Dst
  | toEvent (d : Dst) (n : Nat) : Dst
  | transformed (base : Dst) (ts : List Tfm) : Dst

/-- `prior.support` of the external distribution library; a `Normal` has
real support, `to_event` wraps the support in an independent constraint,
and for primitives the support is carried explicitly. -/
def Dst.support : Dst → Support
  | .prim _ s => s
  | .normal _ _ => .real
  | .toEvent d n => .indep d.support n
  | .transformed d _ => d.support

/-! ## Plates and the plate-reduction routine -/

/-- A plate frame as returned by `get_plates()`: a name, a negative batch
axis index, the current (possibly subsampled) size, and optionally a
`full_size` attribute.  `full_size := none` models a frame with no
`full_size` attribute, read through `getattr(f, "full_size", f.size)`. -/
structure Plate where
  name : String
  dim : Int
  size : Nat
  full_size : Option Nat
deriving DecidableEq

/-- Python equality between a plate frame object and a plate-name string,
as evaluated by `f in self._outer_plates` at line 73 of `effect.py`: a
`CondIndepStackFrame` is never equal to a `str` (Python cross-type equality
falls back to identity and returns `False`), so this is constantly
`false`. -/
def frameEqStr (_f : Plate) (_s : String) : Bool := false

/-- `f in self._outer_plates` where `_outer_plates` is the tuple of plate
NAMES stored at line 44: tuple membership tests the frame against each
name string. -/
def frameInNames (f : Plate) (names : List String) : Bool :=
  names.any (frameEqStr f)

/-- One iteration of the plate loop of `AutoMessenger._remove_outer_plates`
(lines 70-77 of `effect.py`). -/
def reduceStep (outer amortized : List String) (event_dim : Nat)
    (value : Tensor) (f : Plate) : Tensor :=
  let full_size := f.full_size.getD f.size
  let dim := f.dim - (event_dim : Int)
  if frameInNames f outer || amortized.contains f.name then
    if -(value.dim : Int) ≤ dim then value.mean dim else value
  else if f.size ≠ full_size then
    periodic_repeat value full_size dim
  else value

/-- The body of `AutoMessenger._remove_outer_plates` given an existing
`_outer_plates` snapshot: the plate loop followed by the squeeze loop
(lines 70-80); `plates` is the value of `get_plates()`. -/
def reduceCore (outer amortized : List String) (plates : List Plate)
    (value : Tensor) (event_dim : Nat) : Tensor :=
  let v := plates.foldl (reduceStep outer amortized event_dim) value
  squeezeLeading (v.dim - event_dim) v

/-- `AutoMessenger._remove_outer_plates`: reading `self._outer_plates` when
the attribute is absent (outside an active `__call__`) raises an
`AttributeError`, modelled as the error case. -/
def removeOuterPlates (outer : Option (List String)) (amortized : List String)
    (plates : List Plate) (value : Tensor) (event_dim : Nat) : Except String Tensor :=
  match outer with
  | none => .error "AttributeError: _outer_plates"
  | some o => .ok (reduceCore o amortized plates value event_dim)

/-! ## The parameter store

`locs` and `scales` are dotted-path trees of parameters accessed through
`deep_getattr` and `deep_setattr` (external helpers); at the granularity
used by the guide they are maps from site name to tensor, with absent paths
raising `AttributeError` (the `none` case).  `deep_setattr` adds or
overwrites an entry, modelled by consing. -/

def deep_getattr : List (String × Tensor) → String → Option Tensor
  | [], _ => none
  | (k, v) :: rest, name => if k = name then some v else deep_getattr rest name

/-! ## The mean-field normal guide (`AutoNormalMessenger`) -/

/-- Mutable state of an `AutoNormalMessenger` instance:  configuration
(`amortized_plates`, `init_loc_fn`, `init_scale`), the `_computing_median`
flag, the parameter store, and the `_outer_plates` attribute (`none` when
the attribute is absent, i.e. outside an active `__call__`). -/
structure NormalGuide where
  amortized_plates : List String
  init_loc_fn : String → Dst → Tensor
  init_scale : ℚ
  computing_median : Bool
  locs : List (String × Tensor)
  scales : List (String × Tensor)
  outer_plates : Option (List String)

/-- `AutoNormalMessenger._get_params` (lines 176-199): fetch the stored
pair, or lazily initialize, register, and re-fetch.  The trailing
`return self._get_params(name, prior)` of the source recurses exactly one
level, written here as the literal re-fetch. -/
def NormalGuide.getParams (g : NormalGuide) (plates : List Plate)
    (name : String) (prior : Dst) : Except String ((Tensor × Tensor) × NormalGuide) :=
  match deep_getattr g.locs name, deep_getattr g.scales name with
  | some loc, some scale => .ok ((loc, scale), g)
  | _, _ =>
    let transform := bijectTo prior.support
    let event_dim := transform.domainEventDim
    let constrained := g.init_loc_fn name prior
    let unconstrained := transform.inv.apply constrained
    match removeOuterPlates g.outer_plates g.amortized_plates plates unconstrained event_dim with
    | .error e => .error e
    | .ok init_loc =>
      let init_scale := init_loc.full_like g.init_scale
      let g' := { g with locs := (name, init_loc) :: g.locs
                         scales := (name, init_scale) :: g.scales }
      match deep_getattr g'.locs name, deep_getattr g'.scales name with
      | some loc, some scale => .ok ((loc, scale), g')
      | _, _ => .error "unreachable"

/-- Outcome of `get_posterior`: a distribution (stochastic substitution) or
a bare tensor (deterministic substitution, used by median mode). -/
inductive GuideOut where
  | distOut (d : Dst) : GuideOut
  | valueOut (t : Tensor) : GuideOut

/-- `AutoNormalMessenger._get_posterior_median` (lines 208-211). -/
def NormalGuide.getPosteriorMedian (g : NormalGuide) (plates : List Plate)
    (name : String) (prior : Dst) : Except String (GuideOut × NormalGuide) :=
  let transform := bijectTo prior.support
  match g.getParams plates name prior with
  | .error e => .error e
  | .ok ((loc, _scale), g') => .ok (.valueOut (transform.apply loc), g')

/-- `AutoNormalMessenger.get_posterior` (lines 161-174). -/
def NormalGuide.getPosterior (g : NormalGuide) (plates : List Plate)
    (name : String) (prior : Dst) : Except String (GuideOut × NormalGuide) :=
  if g.computing_median then g.getPosteriorMedian plates name prior
  else
    let transform := bijectTo prior.support
    match g.getParams plates name prior with
    | .error e => .error e
    | .ok ((loc, scale), g') =>
      .ok (.distOut (.transformed (.toEvent (.normal loc scale) transform.domainEventDim)
            [transform.with_cache]), g')

/-! ## Running the guide

The `GuideMessenger` interception machinery is not under `src/`.
Modelled from the spec: one execution intercepts a sequence of named sample
effects in model order, calls `get_posterior` at each, and substitutes
either the returned tensor or a sample from the returned distribution;
a raised error aborts the run.  External randomness is an explicit
`sampler` oracle. -/

inductive ModelStep where
  | sample (name : String) (prior : Dst) : ModelStep
  | throwErr (msg : String) : ModelStep

/-- Modelled from the spec: the interception loop of
`GuideMessenger.__call__` (external), which visits sites in model order and
substitutes guide values; the final state is returned also on failure,
since Python exceptions do not roll back attribute mutations. -/
def NormalGuide.runModel (plates : List Plate) (sampler : String → Dst → Tensor) :
    NormalGuide → List ModelStep → List (String × Tensor) →
    Except String (List (String × Tensor)) × NormalGuide
  | g, [], acc => (.ok acc.reverse, g)
  | g, .throwErr m :: _, _ => (.error m, g)
  | g, .sample n p :: rest, acc =>
    match g.getPosterior plates n p with
    | .error e => (.error e, g)
    | .ok (.valueOut t, g') => NormalGuide.runModel plates sampler g' rest ((n, t) :: acc)
    | .ok (.distOut d, g') => NormalGuide.runModel plates sampler g' rest ((n, sampler n d) :: acc)

/-- `AutoMessenger.__call__` (lines 38-48): snapshot the names of the
plates active at entry into `_outer_plates`, run the model, and delete the
snapshot in a `finally` block on every exit path. -/
def NormalGuide.call (g : NormalGuide) (entryPlates plates : List Plate)
    (sampler : String → Dst → Tensor) (steps : List ModelStep) :
    Except String (List (String × Tensor)) × NormalGuide :=
  let g1 := { g with outer_plates := some (entryPlates.map Plate.name) }
  let r := NormalGuide.runModel plates sampler g1 steps []
  (r.1, { r.2 with outer_plates := none })

/-- `AutoNormalMessenger.median` (lines 201-206): set `_computing_median`,
invoke the guide, and clear the flag in a `finally` block. -/
def NormalGuide.median (g : NormalGuide) (entryPlates plates : List Plate)
    (sampler : String → Dst → Tensor) (steps : List ModelStep) :
    Except String (List (String × Tensor)) × NormalGuide :=
  let g1 := { g with computing_median := true }
  let r := g1.call entryPlates plates sampler steps
  (r.1, { r.2 with computing_median := false })

/-! ## The autoregressive guide (`AutoRegressiveMessenger`) -/

/-- Mutable state of an `AutoRegressiveMessenger` instance; it has no
median mode and hence no flag. -/
structure ARGuide where
  amortized_plates : List String
  init_loc_fn : String → Dst → Tensor
  init_scale : ℚ
  locs : List (String × Tensor)
  scales : List (String × Tensor)
  outer_plates : Option (List String)

/-- `AutoRegressiveMessenger._get_params` (lines 278-304): like the
mean-field version but with
`init_loc = _remove_outer_plates(...) * (1 - init_scale)`. -/
def ARGuide.getParams (g : ARGuide) (plates : List Plate)
    (name : String) (prior : Dst) : Except String ((Tensor × Tensor) × ARGuide) :=
  match deep_getattr g.locs name, deep_getattr g.scales name with
  | some loc, some scale => .ok ((loc, scale), g)
  | _, _ =>
    let transform := bijectTo prior.support
    let event_dim := transform.domainEventDim
    let constrained := g.init_loc_fn name prior
    let unconstrained := transform.inv.apply constrained
    match removeOuterPlates g.outer_plates g.amortized_plates plates unconstrained event_dim with
    | .error e => .error e
    | .ok init_loc0 =>
      let init_loc := init_loc0.mulScalar (1 - g.init_scale)
      let init_scale := init_loc.full_like g.init_scale
      let g' := { g with locs := (name, init_loc) :: g.locs
                         scales := (name, init_scale) :: g.scales }
      match deep_getattr g'.locs name, deep_getattr g'.scales name with
      | some loc, some scale => .ok ((loc, scale), g')
      | _, _ => .error "unreachable"

/-- `AutoRegressiveMessenger.get_posterior` (lines 264-276): the prior
transformed by `[transform.inv.with_cache(), affine, transform.with_cache()]`
where `affine` is `y = loc + scale * x` at the domain event dimension with
`cache_size=1`. -/
def ARGuide.getPosterior (g : ARGuide) (plates : List Plate)
    (name : String) (prior : Dst) : Except String (GuideOut × ARGuide) :=
  let transform := bijectTo prior.support
  match g.getParams plates name prior with
  | .error e => .error e
  | .ok ((loc, scale), g') =>
    let affine := Tfm.affineT loc scale transform.domainEventDim 1
    .ok (.distOut (.transformed prior [transform.inv.with_cache, affine, transform.with_cache]), g')

/-! ## Shared lemmas -/

/-- The membership test `f in self._outer_plates` at line 73 compares a
frame object with name strings, so it is false for every frame and every
snapshot. -/
lemma frameInNames_eq_false (f : Plate) (names : List String) :
    frameInNames f names = false := by
  simp [frameInNames, frameEqStr]

/-- Looking up a key right after `deep_setattr` stored it yields the stored
value. -/
lemma deep_getattr_cons_self (store : List (String × Tensor)) (name : String)
    (v : Tensor) : deep_getattr ((name, v) :: store) name = some v := by
  simp [deep_getattr]

/-! ## Claims -/

/-- Claim C1 (code bug): the claim says that a currently active plate whose
name is in the outer-plate snapshot has its axis replaced by its size-1
mean; the code tests `f in self._outer_plates`, comparing the frame object
itself against the stored name strings, which is always false, so the axis
of an outer plate of size 4 is left completely unchanged instead of being
collapsed to the size-1 mean. -/
theorem c1_outer_plate_axis_not_averaged :
    reduceCore ["particle"] [] [⟨"particle", -1, 4, none⟩]
        (Tensor.ofList1 [1, 2, 3, 4]) 0
      = Tensor.ofList1 [1, 2, 3, 4]
    ∧ ((Tensor.ofList1 [1, 2, 3, 4]).mean (-1)).shape = [1]
    ∧ ((Tensor.ofList1 [1, 2, 3, 4]).mean (-1)).data [0] = 5 / 2
    ∧ ¬ Tensor.Teq (reduceCore ["particle"] [] [⟨"particle", -1, 4, none⟩]
          (Tensor.ofList1 [1, 2, 3, 4]) 0)
        ((Tensor.ofList1 [1, 2, 3, 4]).mean (-1)) := by
  refine ⟨rfl, rfl, ?_, ?_⟩
  · norm_num [Tensor.mean, axisOf, Tensor.ofList1, List.range_succ]
  · intro h
    exact absurd h.1 (by decide)

/-- Claim C5: a currently active plate that is neither outer nor amortized
and whose size differs from `full_size` makes the plate loop tile the
corresponding axis periodically up to `full_size`; when the sizes agree the
loop body leaves the tensor unchanged; the tiled tensor has the axis
enlarged to `full_size` and repeats the original entries with the original
axis length as period, and concretely a `size=2, full_size=8` plate turns
`[1, 2]` into `[1, 2, 1, 2, 1, 2, 1, 2]`. -/
theorem c5_subsampled_plate_tiled (outer amortized : List String)
    (event_dim : Nat) (f : Plate) (S : Nat) (v : Tensor)
    (hout : f.name ∉ outer) (ham : f.name ∉ amortized) :
    (f.full_size = some S → f.size ≠ S →
      reduceStep outer amortized event_dim v f
        = periodic_repeat v S (f.dim - (event_dim : Int)))
    ∧ (f.full_size.getD f.size = f.size →
      reduceStep outer amortized event_dim v f = v)
    ∧ ((periodic_repeat v S (f.dim - (event_dim : Int))).shape
        = v.shape.set (axisOf v.dim (f.dim - (event_dim : Int))) S)
    ∧ (∀ idx, (periodic_repeat v S (f.dim - (event_dim : Int))).data idx
        = v.data (idx.set (axisOf v.dim (f.dim - (event_dim : Int)))
            ((idx.getD (axisOf v.dim (f.dim - (event_dim : Int))) 0)
              % (v.shape.getD (axisOf v.dim (f.dim - (event_dim : Int))) 1))))
    ∧ Tensor.Teq (reduceCore [] [] [⟨"data", -1, 2, some 8⟩] (Tensor.ofList1 [1, 2]) 0)
        (Tensor.ofList1 [1, 2, 1, 2, 1, 2, 1, 2]) := by
  refine ⟨?_, ?_, rfl, fun idx => rfl, by decide⟩
  · intro hfs hne
    simp [reduceStep, frameInNames_eq_false, ham, hfs, hne]
  · intro hfull
    simp [reduceStep, frameInNames_eq_false, ham, hfull]

/-- Witness for C5 at a concrete subsampled plate. -/
theorem c5_subsampled_plate_tiled_witness :
    reduceStep [] [] 0 (Tensor.ofList1 [1, 2]) ⟨"data", -1, 2, some 8⟩
      = periodic_repeat (Tensor.ofList1 [1, 2]) 8 (-1) := by
  have h := (c5_subsampled_plate_tiled [] [] 0 ⟨"data", -1, 2, some 8⟩ 8
    (Tensor.ofList1 [1, 2]) (by simp) (by simp)).1 rfl (by decide)
  simpa using h

/-- Claim C9: a plate frame with no `full_size` attribute is read through
`getattr(f, "full_size", f.size)`, so its effective full size equals its
current size and the subsample-tiling branch cannot fire: for such a plate
that is not outer or amortized the loop body returns the tensor unchanged
rather than failing. -/
theorem c9_missing_full_size_is_noop (outer amortized : List String)
    (event_dim : Nat) (f : Plate) (v : Tensor) (hfs : f.full_size = none)
    (hout : f.name ∉ outer) (ham : f.name ∉ amortized) :
    f.full_size.getD f.size = f.size
    ∧ reduceStep outer amortized event_dim v f = v := by
  refine ⟨by rw [hfs]; rfl, ?_⟩
  simp [reduceStep, frameInNames_eq_false, ham, hfs]

/-- Witness for C9 at a concrete attribute-free plate. -/
theorem c9_missing_full_size_is_noop_witness :
    (Plate.full_size ⟨"grp", -1, 5, none⟩).getD 5 = 5
    ∧ reduceStep ["other"] ["amor"] 0 (Tensor.ofList1 [1, 2, 3, 4, 5])
        ⟨"grp", -1, 5, none⟩ = Tensor.ofList1 [1, 2, 3, 4, 5] := by
  have h := c9_missing_full_size_is_noop ["other"] ["amor"] 0 ⟨"grp", -1, 5, none⟩
    (Tensor.ofList1 [1, 2, 3, 4, 5]) rfl (by simp) (by simp)
  exact h

/-- When both parameters are already stored, `_get_params` returns the
stored pair and leaves the guide untouched (mean-field variant). -/
lemma NormalGuide.getParams_hit (g : NormalGuide) (plates : List Plate)
    (name : String) (prior : Dst) (loc scale : Tensor)
    (hl : deep_getattr g.locs name = some loc)
    (hs : deep_getattr g.scales name = some scale) :
    g.getParams plates name prior = .ok ((loc, scale), g) := by
  simp [NormalGuide.getParams, hl, hs]

/-- On a miss with an active snapshot, `_get_params` initializes, registers
and returns the freshly created pair (mean-field variant). -/
lemma NormalGuide.getParams_create (g : NormalGuide) (plates : List Plate)
    (name : String) (prior : Dst) (outer : List String)
    (houter : g.outer_plates = some outer)
    (hmiss : deep_getattr g.locs name = none ∨ deep_getattr g.scales name = none) :
    g.getParams plates name prior =
      (let transform := bijectTo prior.support
       let init_loc := reduceCore outer g.amortized_plates plates
          (transform.inv.apply (g.init_loc_fn name prior)) transform.domainEventDim
       let init_scale := init_loc.full_like g.init_scale
       .ok ((init_loc, init_scale),
        { g with locs := (name, init_loc) :: g.locs
                 scales := (name, init_scale) :: g.scales })) := by
  cases hl : deep_getattr g.locs name with
  | none =>
    cases hs : deep_getattr g.scales name with
    | none => simp [NormalGuide.getParams, hl, hs, removeOuterPlates, houter, deep_getattr]
    | some s => simp [NormalGuide.getParams, hl, hs, removeOuterPlates, houter, deep_getattr]
  | some l =>
    cases hs : deep_getattr g.scales name with
    | none => simp [NormalGuide.getParams, hl, hs, removeOuterPlates, houter, deep_getattr]
    | some s =>
      rcases hmiss with h | h
      · rw [hl] at h; cases h
      · rw [hs] at h; cases h

/-- On a miss with no `_outer_plates` attribute, `_get_params` propagates
the `AttributeError` (mean-field variant). -/
lemma NormalGuide.getParams_noSnapshot (g : NormalGuide) (plates : List Plate)
    (name : String) (prior : Dst) (hnone : g.outer_plates = none)
    (hmiss : deep_getattr g.locs name = none ∨ deep_getattr g.scales name = none) :
    g.getParams plates name prior = .error "AttributeError: _outer_plates" := by
  cases hl : deep_getattr g.locs name with
  | none => simp [NormalGuide.getParams, hl, removeOuterPlates, hnone]
  | some l =>
    cases hs : deep_getattr g.scales name with
    | none => simp [NormalGuide.getParams, hl, hs, removeOuterPlates, hnone]
    | some s =>
      rcases hmiss with h | h
      · rw [hl] at h; cases h
      · rw [hs] at h; cases h

/-- During an active invocation `_get_params` always succeeds and returns a
pair that is stored under the site name afterwards (mean-field variant). -/
lemma NormalGuide.getParams_spec (g : NormalGuide) (plates : List Plate)
    (name : String) (prior : Dst) (outer : List String)
    (houter : g.outer_plates = some outer) :
    ∃ loc scale g', g.getParams plates name prior = .ok ((loc, scale), g')
      ∧ deep_getattr g'.locs name = some loc
      ∧ deep_getattr g'.scales name = some scale := by
  cases hl : deep_getattr g.locs name with
  | some loc =>
    cases hs : deep_getattr g.scales name with
    | some scale =>
      exact ⟨loc, scale, g,
        NormalGuide.getParams_hit g plates name prior loc scale hl hs, hl, hs⟩
    | none =>
      rw [NormalGuide.getParams_create g plates name prior outer houter (Or.inr hs)]
      exact ⟨_, _, _, rfl, deep_getattr_cons_self _ _ _, deep_getattr_cons_self _ _ _⟩
  | none =>
    rw [NormalGuide.getParams_create g plates name prior outer houter (Or.inl hl)]
    exact ⟨_, _, _, rfl, deep_getattr_cons_self _ _ _, deep_getattr_cons_self _ _ _⟩

/-- When both parameters are already stored, `_get_params` returns the
stored pair and leaves the guide untouched (autoregressive variant). -/
lemma ARGuide.arParams_hit (g : ARGuide) (plates : List Plate)
    (name : String) (prior : Dst) (loc scale : Tensor)
    (hl : deep_getattr g.locs name = some loc)
    (hs : deep_getattr g.scales name = some scale) :
    g.getParams plates name prior = .ok ((loc, scale), g) := by
  simp [ARGuide.getParams, hl, hs]

/-- On a miss with an active snapshot, `_get_params` initializes with the
autoregressive formula, registers and returns the pair. -/
lemma ARGuide.arParams_create (g : ARGuide) (plates : List Plate)
    (name : String) (prior : Dst) (outer : List String)
    (houter : g.outer_plates = some outer)
    (hmiss : deep_getattr g.locs name = none ∨ deep_getattr g.scales name = none) :
    g.getParams plates name prior =
      (let transform := bijectTo prior.support
       let init_loc := (reduceCore outer g.amortized_plates plates
          (transform.inv.apply (g.init_loc_fn name prior))
          transform.domainEventDim).mulScalar (1 - g.init_scale)
       let init_scale := init_loc.full_like g.init_scale
       .ok ((init_loc, init_scale),
        { g with locs := (name, init_loc) :: g.locs
                 scales := (name, init_scale) :: g.scales })) := by
  cases hl : deep_getattr g.locs name with
  | none =>
    cases hs : deep_getattr g.scales name with
    | none => simp [ARGuide.getParams, hl, hs, removeOuterPlates, houter, deep_getattr]
    | some s => simp [ARGuide.getParams, hl, hs, removeOuterPlates, houter, deep_getattr]
  | some l =>
    cases hs : deep_getattr g.scales name with
    | none => simp [ARGuide.getParams, hl, hs, removeOuterPlates, houter, deep_getattr]
    | some s =>
      rcases hmiss with h | h
      · rw [hl] at h; cases h
      · rw [hs] at h; cases h

/-- On a miss with no `_outer_plates` attribute, `_get_params` propagates
the `AttributeError` (autoregressive variant). -/
lemma ARGuide.arParams_noSnapshot (g : ARGuide) (plates : List Plate)
    (name : String) (prior : Dst) (hnone : g.outer_plates = none)
    (hmiss : deep_getattr g.locs name = none ∨ deep_getattr g.scales name = none) :
    g.getParams plates name prior = .error "AttributeError: _outer_plates" := by
  cases hl : deep_getattr g.locs name with
  | none => simp [ARGuide.getParams, hl, removeOuterPlates, hnone]
  | some l =>
    cases hs : deep_getattr g.scales name with
    | none => simp [ARGuide.getParams, hl, hs, removeOuterPlates, hnone]
    | some s =>
      rcases hmiss with h | h
      · rw [hl] at h; cases h
      · rw [hs] at h; cases h

/-- During an active invocation `_get_params` always succeeds and returns a
pair that is stored under the site name afterwards (autoregressive
variant). -/
lemma ARGuide.arParams_spec (g : ARGuide) (plates : List Plate)
    (name : String) (prior : Dst) (outer : List String)
    (houter : g.outer_plates = some outer) :
    ∃ loc scale g', g.getParams plates name prior = .ok ((loc, scale), g')
      ∧ deep_getattr g'.locs name = some loc
      ∧ deep_getattr g'.scales name = some scale := by
  cases hl : deep_getattr g.locs name with
  | some loc =>
    cases hs : deep_getattr g.scales name with
    | some scale =>
      exact ⟨loc, scale, g,
        ARGuide.arParams_hit g plates name prior loc scale hl hs, hl, hs⟩
    | none =>
      rw [ARGuide.arParams_create g plates name prior outer houter (Or.inr hs)]
      exact ⟨_, _, _, rfl, deep_getattr_cons_self _ _ _, deep_getattr_cons_self _ _ _⟩
  | none =>
    rw [ARGuide.arParams_create g plates name prior outer houter (Or.inl hl)]
    exact ⟨_, _, _, rfl, deep_getattr_cons_self _ _ _, deep_getattr_cons_self _ _ _⟩

/-- A concrete mean-field guide state used by witnesses. -/
def gN0 : NormalGuide :=
  { amortized_plates := []
    init_loc_fn := fun _ _ => Tensor.ofList1 [3]
    init_scale := 1 / 10
    computing_median := false
    locs := []
    scales := []
    outer_plates := some [] }

/-- A concrete autoregressive guide state used by witnesses. -/
def gA0 : ARGuide :=
  { amortized_plates := []
    init_loc_fn := fun _ _ => Tensor.ofList1 [3]
    init_scale := 1 / 10
    locs := []
    scales := []
    outer_plates := some [] }

/-- Claim C2: in normal mode the mean-field guide returns, for every site,
the push-forward of an independent Normal with the stored `(loc, scale)`
parameters, with event dimensions equal to
`biject_to(prior.support).domain.event_dim`, through the bijection
`biject_to(prior.support)`. -/
theorem c2_meanfield_posterior_structure (g : NormalGuide) (plates : List Plate)
    (name : String) (prior : Dst) (outer : List String)
    (hmed : g.computing_median = false) (houter : g.outer_plates = some outer) :
    ∃ loc scale g', g.getPosterior plates name prior
        = .ok (.distOut (.transformed
            (.toEvent (.normal loc scale) (bijectTo prior.support).domainEventDim)
            [(bijectTo prior.support).with_cache]), g')
      ∧ deep_getattr g'.locs name = some loc
      ∧ deep_getattr g'.scales name = some scale := by
  obtain ⟨loc, scale, g', hp, hl, hs⟩ :=
    NormalGuide.getParams_spec g plates name prior outer houter
  exact ⟨loc, scale, g', by simp [NormalGuide.getPosterior, hmed, hp], hl, hs⟩

/-- Witness for C2 at a concrete guide state and site. -/
theorem c2_meanfield_posterior_structure_witness :
    gN0.computing_median = false ∧ gN0.outer_plates = some []
    ∧ (∃ loc scale g', gN0.getPosterior [] "a" (.prim "Normal01" .real)
        = .ok (.distOut (.transformed
            (.toEvent (.normal loc scale) (bijectTo (Dst.prim "Normal01" .real).support).domainEventDim)
            [(bijectTo (Dst.prim "Normal01" .real).support).with_cache]), g')
      ∧ deep_getattr g'.locs "a" = some loc
      ∧ deep_getattr g'.scales "a" = some scale) :=
  ⟨rfl, rfl,
    c2_meanfield_posterior_structure gN0 [] "a" (.prim "Normal01" .real) [] rfl rfl⟩

/-- In median mode `get_posterior` returns the deterministic point
`transform(loc)` for whatever pair `_get_params` yields. -/
lemma NormalGuide.getPosterior_median_mode (g : NormalGuide) (plates : List Plate)
    (name : String) (prior : Dst) (pr : Tensor × Tensor) (g' : NormalGuide)
    (hflag : g.computing_median = true)
    (hp : g.getParams plates name prior = .ok (pr, g')) :
    g.getPosterior plates name prior
      = .ok (.valueOut ((bijectTo prior.support).apply pr.1), g') := by
  simp [NormalGuide.getPosterior, hflag, NormalGuide.getPosteriorMedian, hp]

/-- In normal mode `get_posterior` returns the transformed independent
Normal built from whatever pair `_get_params` yields. -/
lemma NormalGuide.getPosterior_normal_mode (g : NormalGuide) (plates : List Plate)
    (name : String) (prior : Dst) (pr : Tensor × Tensor) (g' : NormalGuide)
    (hflag : g.computing_median = false)
    (hp : g.getParams plates name prior = .ok (pr, g')) :
    g.getPosterior plates name prior
      = .ok (.distOut (.transformed
          (.toEvent (.normal pr.1 pr.2) (bijectTo prior.support).domainEventDim)
          [(bijectTo prior.support).with_cache]), g') := by
  simp [NormalGuide.getPosterior, hflag, hp]

/-- The autoregressive `get_posterior` wraps the prior in the
inverse-affine-forward transform list built from whatever pair
`_get_params` yields. -/
lemma ARGuide.getPosterior_eq (g : ARGuide) (plates : List Plate)
    (name : String) (prior : Dst) (pr : Tensor × Tensor) (g' : ARGuide)
    (hp : g.getParams plates name prior = .ok (pr, g')) :
    g.getPosterior plates name prior = .ok (.distOut (.transformed prior
      [(bijectTo prior.support).inv.with_cache,
       .affineT pr.1 pr.2 (bijectTo prior.support).domainEventDim 1,
       (bijectTo prior.support).with_cache]), g') := by
  simp [ARGuide.getPosterior, hp]

/-- A median-mode run over sites whose parameters are all present returns
the same outputs regardless of ambient plates and sampler, and for any two
guide states with equal parameter stores. -/
lemma runModel_median_allPresent (pl1 pl2 : List Plate)
    (s1 s2 : String → Dst → Tensor) (steps : List ModelStep) :
    ∀ (g1 g2 : NormalGuide) (acc : List (String × Tensor)),
    g1.computing_median = true → g2.computing_median = true →
    g1.locs = g2.locs → g1.scales = g2.scales →
    (∀ n p, ModelStep.sample n p ∈ steps →
      (deep_getattr g1.locs n).isSome ∧ (deep_getattr g1.scales n).isSome) →
    (NormalGuide.runModel pl1 s1 g1 steps acc).1
      = (NormalGuide.runModel pl2 s2 g2 steps acc).1 := by
  induction steps with
  | nil => intro g1 g2 acc _ _ _ _ _; rfl
  | cons st rest ih =>
    intro g1 g2 acc hf1 hf2 hlocs hscales hpres
    cases st with
    | throwErr m => rfl
    | sample n p =>
      obtain ⟨hl1, hs1⟩ := hpres n p (List.mem_cons_self _ _)
      obtain ⟨loc, hloc⟩ := Option.isSome_iff_exists.mp hl1
      obtain ⟨scale, hscale⟩ := Option.isSome_iff_exists.mp hs1
      have hloc2 : deep_getattr g2.locs n = some loc := hlocs ▸ hloc
      have hscale2 : deep_getattr g2.scales n = some scale := hscales ▸ hscale
      have e1 := NormalGuide.getPosterior_median_mode g1 pl1 n p (loc, scale) g1 hf1
        (NormalGuide.getParams_hit g1 pl1 n p loc scale hloc hscale)
      have e2 := NormalGuide.getPosterior_median_mode g2 pl2 n p (loc, scale) g2 hf2
        (NormalGuide.getParams_hit g2 pl2 n p loc scale hloc2 hscale2)
      simp only [NormalGuide.runModel, e1, e2]
      exact ih g1 g2 _ hf1 hf2 hlocs hscales
        (fun n' p' hm => hpres n' p' (List.mem_cons_of_mem _ hm))

/-- A concrete mean-field guide state with parameters already stored for
site `a`, used by witnesses. -/
def gN1 : NormalGuide :=
  { gN0 with locs := [("a", Tensor.ofList1 [0])], scales := [("a", Tensor.ofList1 [1])] }

/-- A concrete autoregressive guide state with parameters already stored
for site `b`, used by witnesses. -/
def gA1 : ARGuide :=
  { gA0 with locs := [("b", Tensor.ofList1 [0])], scales := [("b", Tensor.ofList1 [1])] }

/-- Claim C3: the autoregressive guide returns, for every site, the prior
transformed by the composition `transform.inv` then the affine map
`y = loc + scale * x` (at the domain event dimension) then `transform`,
with the stored `(loc, scale)`; and two executions whose realized upstream
values give the dependent site different priors yield different posteriors
while the stored `(loc, scale)` pair and the guide state stay fixed. -/
theorem c3_ar_posterior_transforms_prior (g : ARGuide) (plates : List Plate)
    (name : String) (outer : List String)
    (houter : g.outer_plates = some outer) :
    (∀ prior : Dst, ∃ loc scale g', g.getPosterior plates name prior
        = .ok (.distOut (.transformed prior
            [(bijectTo prior.support).inv.with_cache,
             .affineT loc scale (bijectTo prior.support).domainEventDim 1,
             (bijectTo prior.support).with_cache]), g')
      ∧ deep_getattr g'.locs name = some loc
      ∧ deep_getattr g'.scales name = some scale)
    ∧ (∀ (p1 p2 : Dst) (loc scale : Tensor), p1 ≠ p2 →
        deep_getattr g.locs name = some loc →
        deep_getattr g.scales name = some scale →
        ∃ d1 d2, g.getPosterior plates name p1 = .ok (.distOut d1, g)
          ∧ g.getPosterior plates name p2 = .ok (.distOut d2, g)
          ∧ d1 ≠ d2) := by
  constructor
  · intro prior
    obtain ⟨loc, scale, g', hp, hl, hs⟩ :=
      ARGuide.arParams_spec g plates name prior outer houter
    exact ⟨loc, scale, g', ARGuide.getPosterior_eq g plates name prior (loc, scale) g' hp,
      hl, hs⟩
  · intro p1 p2 loc scale hne hl hs
    refine ⟨_, _,
      ARGuide.getPosterior_eq g plates name p1 (loc, scale) g
        (ARGuide.arParams_hit g plates name p1 loc scale hl hs),
      ARGuide.getPosterior_eq g plates name p2 (loc, scale) g
        (ARGuide.arParams_hit g plates name p2 loc scale hl hs), ?_⟩
    intro hc
    injection hc with hb ht
    exact hne hb

/-- Witness for C3: two different upstream-dependent priors for site `b`
give different posteriors while the stored parameters stay fixed. -/
theorem c3_ar_posterior_transforms_prior_witness :
    ∃ d1 d2, gA1.getPosterior [] "b" (.prim "Normal(1,1)" .real)
        = .ok (.distOut d1, gA1)
      ∧ gA1.getPosterior [] "b" (.prim "Normal(2,1)" .real)
        = .ok (.distOut d2, gA1)
      ∧ d1 ≠ d2 :=
  (c3_ar_posterior_transforms_prior gA1 [] "b" [] rfl).2
    (.prim "Normal(1,1)" .real) (.prim "Normal(2,1)" .real)
    (Tensor.ofList1 [0]) (Tensor.ofList1 [1])
    (by intro h; injection h with h1 h2; exact absurd h1 (by decide)) rfl rfl

/-- Claim C4: on first visit the autoregressive guide stores
`loc = canonical * (1 - init_scale)` where `canonical` is the
plate-reduced unconstrained initial value, and stores a scale tensor of the
same shape filled everywhere with the configured scalar `init_scale`. -/
theorem c4_ar_init_formula (g : ARGuide) (plates : List Plate) (name : String)
    (prior : Dst) (outer : List String)
    (houter : g.outer_plates = some outer)
    (hmiss : deep_getattr g.locs name = none) :
    ∃ g' loc, g.getParams plates name prior
        = .ok ((loc, loc.full_like g.init_scale), g')
      ∧ loc = (reduceCore outer g.amortized_plates plates
            ((bijectTo prior.support).inv.apply (g.init_loc_fn name prior))
            (bijectTo prior.support).domainEventDim).mulScalar (1 - g.init_scale)
      ∧ deep_getattr g'.locs name = some loc
      ∧ deep_getattr g'.scales name = some (loc.full_like g.init_scale)
      ∧ (loc.full_like g.init_scale).shape = loc.shape
      ∧ (∀ idx, (loc.full_like g.init_scale).data idx = g.init_scale) := by
  rw [ARGuide.arParams_create g plates name prior outer houter (Or.inl hmiss)]
  exact ⟨_, _, rfl, rfl, deep_getattr_cons_self _ _ _, deep_getattr_cons_self _ _ _,
    rfl, fun _ => rfl⟩

/-- Witness for C4 at a fresh site of a concrete autoregressive guide. -/
theorem c4_ar_init_formula_witness :
    ∃ g' loc, gA0.getParams [] "a" (.prim "Normal01" .real)
        = .ok ((loc, loc.full_like gA0.init_scale), g')
      ∧ loc = (reduceCore [] gA0.amortized_plates []
            ((bijectTo (Dst.prim "Normal01" .real).support).inv.apply
              (gA0.init_loc_fn "a" (.prim "Normal01" .real)))
            (bijectTo (Dst.prim "Normal01" .real).support).domainEventDim).mulScalar
            (1 - gA0.init_scale)
      ∧ deep_getattr g'.locs "a" = some loc
      ∧ deep_getattr g'.scales "a" = some (loc.full_like gA0.init_scale)
      ∧ (loc.full_like gA0.init_scale).shape = loc.shape
      ∧ (∀ idx, (loc.full_like gA0.init_scale).data idx = gA0.init_scale) :=
  c4_ar_init_formula gA0 [] "a" (.prim "Normal01" .real) [] rfl rfl

/-- Claim C6: for any site name the `(loc, scale)` pair is created at most
once per guide instance, in both variants: whenever `_get_params` returns a
pair, that pair is stored under the name, and any subsequent
`_get_params` call for the same name (with any plates and prior) returns
the very same pair with the guide state unchanged. -/
theorem c6_params_created_once :
    (∀ (g : NormalGuide) (plates plates' : List Plate) (name : String)
        (prior prior' : Dst) (pr : Tensor × Tensor) (g' : NormalGuide),
      g.getParams plates name prior = .ok (pr, g') →
      deep_getattr g'.locs name = some pr.1
      ∧ deep_getattr g'.scales name = some pr.2
      ∧ g'.getParams plates' name prior' = .ok (pr, g'))
    ∧ (∀ (g : ARGuide) (plates plates' : List Plate) (name : String)
        (prior prior' : Dst) (pr : Tensor × Tensor) (g' : ARGuide),
      g.getParams plates name prior = .ok (pr, g') →
      deep_getattr g'.locs name = some pr.1
      ∧ deep_getattr g'.scales name = some pr.2
      ∧ g'.getParams plates' name prior' = .ok (pr, g')) := by
  constructor
  · intro g plates plates' name prior prior' pr g' h
    cases hl : deep_getattr g.locs name with
    | some loc =>
      cases hs : deep_getattr g.scales name with
      | some scale =>
        rw [NormalGuide.getParams_hit g plates name prior loc scale hl hs] at h
        simp only [Except.ok.injEq, Prod.mk.injEq] at h
        obtain ⟨rfl, rfl⟩ := h
        exact ⟨hl, hs, NormalGuide.getParams_hit g plates' name prior' loc scale hl hs⟩
      | none =>
        cases ho : g.outer_plates with
        | none =>
          rw [NormalGuide.getParams_noSnapshot g plates name prior ho (Or.inr hs)] at h
          cases h
        | some outer =>
          rw [NormalGuide.getParams_create g plates name prior outer ho (Or.inr hs)] at h
          simp only [Except.ok.injEq, Prod.mk.injEq] at h
          obtain ⟨rfl, rfl⟩ := h
          exact ⟨deep_getattr_cons_self _ _ _, deep_getattr_cons_self _ _ _,
            NormalGuide.getParams_hit _ plates' name prior' _ _
              (deep_getattr_cons_self _ _ _) (deep_getattr_cons_self _ _ _)⟩
    | none =>
      cases ho : g.outer_plates with
      | none =>
        rw [NormalGuide.getParams_noSnapshot g plates name prior ho (Or.inl hl)] at h
        cases h
      | some outer =>
        rw [NormalGuide.getParams_create g plates name prior outer ho (Or.inl hl)] at h
        simp only [Except.ok.injEq, Prod.mk.injEq] at h
        obtain ⟨rfl, rfl⟩ := h
        exact ⟨deep_getattr_cons_self _ _ _, deep_getattr_cons_self _ _ _,
          NormalGuide.getParams_hit _ plates' name prior' _ _
            (deep_getattr_cons_self _ _ _) (deep_getattr_cons_self _ _ _)⟩
  · intro g plates plates' name prior prior' pr g' h
    cases hl : deep_getattr g.locs name with
    | some loc =>
      cases hs : deep_getattr g.scales name with
      | some scale =>
        rw [ARGuide.arParams_hit g plates name prior loc scale hl hs] at h
        simp only [Except.ok.injEq, Prod.mk.injEq] at h
        obtain ⟨rfl, rfl⟩ := h
        exact ⟨hl, hs, ARGuide.arParams_hit g plates' name prior' loc scale hl hs⟩
      | none =>
        cases ho : g.outer_plates with
        | none =>
          rw [ARGuide.arParams_noSnapshot g plates name prior ho (Or.inr hs)] at h
          cases h
        | some outer =>
          rw [ARGuide.arParams_create g plates name prior outer ho (Or.inr hs)] at h
          simp only [Except.ok.injEq, Prod.mk.injEq] at h
          obtain ⟨rfl, rfl⟩ := h
          exact ⟨deep_getattr_cons_self _ _ _, deep_getattr_cons_self _ _ _,
            ARGuide.arParams_hit _ plates' name prior' _ _
              (deep_getattr_cons_self _ _ _) (deep_getattr_cons_self _ _ _)⟩
    | none =>
      cases ho : g.outer_plates with
      | none =>
        rw [ARGuide.arParams_noSnapshot g plates name prior ho (Or.inl hl)] at h
        cases h
      | some outer =>
        rw [ARGuide.arParams_create g plates name prior outer ho (Or.inl hl)] at h
        simp only [Except.ok.injEq, Prod.mk.injEq] at h
        obtain ⟨rfl, rfl⟩ := h
        exact ⟨deep_getattr_cons_self _ _ _, deep_getattr_cons_self _ _ _,
          ARGuide.arParams_hit _ plates' name prior' _ _
            (deep_getattr_cons_self _ _ _) (deep_getattr_cons_self _ _ _)⟩

/-- Witness for C6 at a concrete mean-field guide with stored parameters
for site `a`. -/
theorem c6_params_created_once_witness :
    deep_getattr gN1.locs "a" = some (Tensor.ofList1 [0], Tensor.ofList1 [1]).1
    ∧ deep_getattr gN1.scales "a" = some (Tensor.ofList1 [0], Tensor.ofList1 [1]).2
    ∧ gN1.getParams [] "a" (.prim "Normal01" .real)
        = .ok ((Tensor.ofList1 [0], Tensor.ofList1 [1]), gN1) :=
  c6_params_created_once.1 gN1 [] [] "a" (.prim "Normal01" .real)
    (.prim "Normal01" .real) (Tensor.ofList1 [0], Tensor.ofList1 [1]) gN1 rfl

/-- Claim C7: `median()` sets the `_computing_median` flag, runs the guide,
and clears the flag on every exit path (the cleared flag holds for every
step list, including ones that raise); while the flag is set
`get_posterior` returns the deterministic point `transform(loc)`; and two
`median()` runs over sites with the same stored parameters return
identical output, for any samplers and ambient plates. -/
theorem c7_median_mode :
    (∀ (g : NormalGuide) (ep pl : List Plate) (sampler : String → Dst → Tensor)
        (steps : List ModelStep),
      (g.median ep pl sampler steps).2.computing_median = false)
    ∧ (∀ (g : NormalGuide) (pl : List Plate) (name : String) (prior : Dst)
        (pr : Tensor × Tensor) (g' : NormalGuide),
      g.computing_median = true →
      g.getParams pl name prior = .ok (pr, g') →
      g.getPosterior pl name prior
        = .ok (.valueOut ((bijectTo prior.support).apply pr.1), g'))
    ∧ (∀ (g1 g2 : NormalGuide) (ep1 ep2 pl1 pl2 : List Plate)
        (s1 s2 : String → Dst → Tensor) (steps : List ModelStep),
      g1.locs = g2.locs → g1.scales = g2.scales →
      (∀ n p, ModelStep.sample n p ∈ steps →
        (deep_getattr g1.locs n).isSome ∧ (deep_getattr g1.scales n).isSome) →
      (g1.median ep1 pl1 s1 steps).1 = (g2.median ep2 pl2 s2 steps).1) := by
  refine ⟨fun g ep pl sampler steps => rfl, ?_, ?_⟩
  · intro g pl name prior pr g' hflag hp
    exact NormalGuide.getPosterior_median_mode g pl name prior pr g' hflag hp
  · intro g1 g2 ep1 ep2 pl1 pl2 s1 s2 steps hlocs hscales hpres
    have h := runModel_median_allPresent pl1 pl2 s1 s2 steps
      { g1 with computing_median := true, outer_plates := some (ep1.map Plate.name) }
      { g2 with computing_median := true, outer_plates := some (ep2.map Plate.name) }
      [] rfl rfl hlocs hscales hpres
    simpa [NormalGuide.median, NormalGuide.call] using h

/-- Witness for C7: two median runs with different samplers over the same
stored parameters return identical output. -/
theorem c7_median_mode_witness :
    (gN1.median [] [] (fun _ _ => Tensor.ofList1 [7])
        [.sample "a" (.prim "Normal01" .real)]).1
      = (gN1.median [] [] (fun _ _ => Tensor.ofList1 [8])
        [.sample "a" (.prim "Normal01" .real)]).1 :=
  c7_median_mode.2.2 gN1 gN1 [] [] [] []
    (fun _ _ => Tensor.ofList1 [7]) (fun _ _ => Tensor.ofList1 [8])
    [.sample "a" (.prim "Normal01" .real)] rfl rfl
    (by
      intro n p hm
      simp only [List.mem_singleton, ModelStep.sample.injEq] at hm
      obtain ⟨rfl, rfl⟩ := hm
      exact ⟨rfl, rfl⟩)

/-- Claim C8: every `__call__` sets the `_outer_plates` snapshot at entry
and deletes it on every exit path (for every step list, including ones
that raise); afterwards the plate-reduction routine fails with an
`AttributeError` when invoked without an active snapshot; and a call whose
model creates parameters at a fresh site succeeds, showing the snapshot is
in place during the run. -/
theorem c8_outer_plates_lifecycle :
    (∀ (g : NormalGuide) (entryPlates plates : List Plate)
        (sampler : String → Dst → Tensor) (steps : List ModelStep),
      (g.call entryPlates plates sampler steps).2.outer_plates = none)
    ∧ (∀ (amortized : List String) (plates : List Plate) (v : Tensor) (ed : Nat),
      removeOuterPlates none amortized plates v ed
        = .error "AttributeError: _outer_plates")
    ∧ (∀ (g : NormalGuide) (entryPlates plates : List Plate)
        (sampler : String → Dst → Tensor) (name : String) (prior : Dst),
      deep_getattr g.locs name = none → g.computing_median = false →
      ∃ out g', g.call entryPlates plates sampler [.sample name prior]
        = (.ok out, g')) := by
  refine ⟨fun g ep pl sampler steps => rfl, fun am pl v ed => rfl, ?_⟩
  intro g ep pl sampler name prior hmiss hm
  have hp := NormalGuide.getParams_create
    { g with outer_plates := some (ep.map Plate.name) } pl name prior
    (ep.map Plate.name) rfl (Or.inl hmiss)
  have hpost := NormalGuide.getPosterior_normal_mode
    { g with outer_plates := some (ep.map Plate.name) } pl name prior _ _ hm hp
  refine ⟨[(name, sampler name (.transformed
      (.toEvent (.normal
        (reduceCore (ep.map Plate.name) g.amortized_plates pl
          ((bijectTo prior.support).inv.apply (g.init_loc_fn name prior))
          (bijectTo prior.support).domainEventDim)
        ((reduceCore (ep.map Plate.name) g.amortized_plates pl
          ((bijectTo prior.support).inv.apply (g.init_loc_fn name prior))
          (bijectTo prior.support).domainEventDim).full_like g.init_scale))
        (bijectTo prior.support).domainEventDim)
      [(bijectTo prior.support).with_cache]))],
    { g with
      locs := (name, reduceCore (ep.map Plate.name) g.amortized_plates pl
          ((bijectTo prior.support).inv.apply (g.init_loc_fn name prior))
          (bijectTo prior.support).domainEventDim) :: g.locs
      scales := (name, (reduceCore (ep.map Plate.name) g.amortized_plates pl
          ((bijectTo prior.support).inv.apply (g.init_loc_fn name prior))
          (bijectTo prior.support).domainEventDim).full_like g.init_scale) :: g.scales
      outer_plates := none }, ?_⟩
  simp [NormalGuide.call, NormalGuide.runModel, hpost]

/-- Witness for C8 at a concrete guide, for a raising model, a missing
snapshot, and a parameter-creating call. -/
theorem c8_outer_plates_lifecycle_witness :
    (gN0.call [] [] (fun _ _ => Tensor.ofList1 [7]) [.throwErr "boom"]).2.outer_plates
        = none
    ∧ removeOuterPlates none [] [] (Tensor.ofList1 [1]) 0
        = .error "AttributeError: _outer_plates"
    ∧ ∃ out g', gN0.call [] [] (fun _ _ => Tensor.ofList1 [7])
        [.sample "a" (.prim "Normal01" .real)] = (.ok out, g') :=
  ⟨c8_outer_plates_lifecycle.1 gN0 [] [] (fun _ _ => Tensor.ofList1 [7]) [.throwErr "boom"],
   c8_outer_plates_lifecycle.2.1 [] [] (Tensor.ofList1 [1]) 0,
   c8_outer_plates_lifecycle.2.2 gN0 [] [] (fun _ _ => Tensor.ofList1 [7]) "a"
     (.prim "Normal01" .real) rfl rfl⟩

/-- Claim C10: on a fresh site, median mode creates the parameters through
the same `_get_params` routine as a stochastic invocation: both modes
succeed, store identical `(loc, scale)` values, and the median output is
`transform(loc)` for the created `loc`. -/
theorem c10_median_lazy_creation (g : NormalGuide) (plates : List Plate)
    (name : String) (prior : Dst) (outer : List String)
    (houter : g.outer_plates = some outer)
    (hmiss : deep_getattr g.locs name = none) :
    ∃ loc scale gT gF,
      ({ g with computing_median := true } : NormalGuide).getPosterior plates name prior
        = .ok (.valueOut ((bijectTo prior.support).apply loc), gT)
      ∧ ({ g with computing_median := false } : NormalGuide).getPosterior plates name prior
        = .ok (.distOut (.transformed
            (.toEvent (.normal loc scale) (bijectTo prior.support).domainEventDim)
            [(bijectTo prior.support).with_cache]), gF)
      ∧ gT.locs = gF.locs ∧ gT.scales = gF.scales
      ∧ deep_getattr gT.locs name = some loc
      ∧ deep_getattr gT.scales name = some scale := by
  have h1 := NormalGuide.getParams_create { g with computing_median := true }
    plates name prior outer houter (Or.inl hmiss)
  have h2 := NormalGuide.getParams_create { g with computing_median := false }
    plates name prior outer houter (Or.inl hmiss)
  exact ⟨_, _, _, _,
    NormalGuide.getPosterior_median_mode _ plates name prior _ _ rfl h1,
    NormalGuide.getPosterior_normal_mode _ plates name prior _ _ rfl h2,
    rfl, rfl, deep_getattr_cons_self _ _ _, deep_getattr_cons_self _ _ _⟩

/-- Witness for C10 at a fresh site of a concrete mean-field guide. -/
theorem c10_median_lazy_creation_witness :
    ∃ loc scale gT gF,
      ({ gN0 with computing_median := true } : NormalGuide).getPosterior [] "a"
          (.prim "Normal01" .real)
        = .ok (.valueOut ((bijectTo (Dst.prim "Normal01" .real).support).apply loc), gT)
      ∧ ({ gN0 with computing_median := false } : NormalGuide).getPosterior [] "a"
          (.prim "Normal01" .real)
        = .ok (.distOut (.transformed
            (.toEvent (.normal loc scale)
              (bijectTo (Dst.prim "Normal01" .real).support).domainEventDim)
            [(bijectTo (Dst.prim "Normal01" .real).support).with_cache]), gF)
      ∧ gT.locs = gF.locs ∧ gT.scales = gF.scales
      ∧ deep_getattr gT.locs "a" = some loc
      ∧ deep_getattr gT.scales "a" = some scale :=
  c10_median_lazy_creation gN0 [] "a" (.prim "Normal01" .real) [] rfl rfl
